import Mathlib

set_option autoImplicit false

/-!
Shallow embedding of the wallet ledger engine of this repository
(src/apps/wallet: models.py, services.py, constants.py, exceptions.py),
together with theorems settling the frozen claims about it.

Conventions of the embedding:
* Django model rows become Lean structures; the database becomes a
  `LedgerState` holding lists of rows.  `objects.get(...)` becomes a
  first-match scan of the list, and a row update rewrites the first
  matching entry in place (references and user ids are unique in the
  real database, so first-match is the faithful reading).
* Monetary amounts and balances are `Int` (the columns are
  `BigIntegerField`, i.e. signed integers; nothing in `models.py`
  restricts the sign of a stored `Transaction.amount`).
* Exceptions become an error type; a function wrapped in
  `transaction.atomic` that raises is modelled by returning the error
  with no new state (the decorator rolls every write back).
* The external gateway call of `initiate_deposit` is a parameter: the
  caller supplies the gateway outcome, since the HTTP exchange itself
  is outside the ledger engine.
-/

/-- Transaction statuses, from the TransactionStatus choices in models.py. -/
inductive TransactionStatus
  | pending
  | success
  | failed
  deriving DecidableEq, Repr

/-- Transaction kinds, from the TransactionType choices in models.py. -/
inductive TransactionType
  | deposit
  | transfer
  deriving DecidableEq, Repr

/-- Errors raised by the wallet code, one constructor per exception class of
src/apps/wallet/exceptions.py that the embedded operations can raise, plus
`walletMissingRow` for a bare Django DoesNotExist escaping uncaught, plus
`invalidOperation`.  `invalidOperation` is the InvalidOperation category of
the specification's error taxonomy (section 7); NO exception class of
exceptions.py corresponds to it and no embedded operation ever produces it —
it exists so that statements comparing the code's errors against the
specification's taxonomy can be written down. -/
inductive WalletError
  | insufficientBalance
  | walletNotFound
  | invalidAmount
  | duplicateTransaction
  | paystackAPI
  | walletMissingRow
  | invalidOperation
  deriving DecidableEq, Repr

/-- A wallet row (models.py, class Wallet): the owning user id and an
integer balance in the minor currency unit. -/
structure Wallet where
  userId : Nat
  balance : Int
  deriving DecidableEq, Repr

/-- A transaction row (models.py, class Transaction).  Field order and
names follow the model; `userId`/`recipient` stand for the user foreign
keys, `metadata` for the JSON bag (string pairs suffice for the fields the
code writes). -/
structure Transaction where
  userId : Nat
  reference : String
  transaction_type : TransactionType
  amount : Int
  status : TransactionStatus
  recipient_wallet_number : Option String := none
  recipient : Option Nat := none
  paystack_reference : Option String := none
  authorization_url : Option String := none
  access_code : Option String := none
  metadata : List (String × String) := []
  deriving DecidableEq, Repr

/-- A user profile row (apps/authentication/models.py, class UserProfile):
owning user id, the public 13-digit wallet number, and the user's email
(the email lives on the Django User row; it is inlined here because the
ledger code reads it only together with the profile). -/
structure UserProfile where
  userId : Nat
  wallet_number : String
  email : String
  deriving DecidableEq, Repr

/-- The database state the ledger engine touches: profile, wallet and
transaction rows. -/
structure LedgerState where
  profiles : List UserProfile
  wallets : List Wallet
  transactions : List Transaction
  deriving DecidableEq, Repr

/-- Result of a successful gateway call (paystack.py,
initialize_transaction returns the data dict; the service reads the three
keys with .get, hence the Option fields). -/
structure PaystackData where
  reference : Option String
  authorization_url : Option String
  access_code : Option String
  deriving DecidableEq, Repr

/-- Wallet.credit (models.py line 36): unconditionally adds the amount to
the balance.  There is no validation of the argument. -/
def Wallet.credit (w : Wallet) (amount : Int) : Wallet :=
  ⟨w.userId, w.balance + amount⟩

/-- Wallet.debit (models.py line 41): raises if balance < amount, else
subtracts. -/
def Wallet.debit (w : Wallet) (amount : Int) : Except WalletError Wallet :=
  if w.balance < amount then Except.error WalletError.insufficientBalance
  else Except.ok ⟨w.userId, w.balance - amount⟩

/-- Transaction.mark_success (models.py line 101): unconditionally sets
the status to success (no check that the current status is pending). -/
def Transaction.mark_success (t : Transaction) : Transaction :=
  { t with status := TransactionStatus.success }

/-- Transaction.mark_failed (models.py line 106): unconditionally sets the
status to failed. -/
def Transaction.mark_failed (t : Transaction) : Transaction :=
  { t with status := TransactionStatus.failed }

/-- Wallet.objects.get(user=uid): first wallet row of the given user. -/
def findWallet (uid : Nat) : List Wallet → Option Wallet
  | [] => none
  | w :: ws => if w.userId = uid then some w else findWallet uid ws

/-- Saving a mutated wallet row: rewrite the first row of the given user. -/
def updateWallet (uid : Nat) (f : Wallet → Wallet) : List Wallet → List Wallet
  | [] => []
  | w :: ws => if w.userId = uid then f w :: ws else w :: updateWallet uid f ws

/-- Wallet.objects.get_or_create(user=uid) (used at services.py lines 31
and 156): return the existing row, or append a fresh zero-balance row. -/
def getOrCreateWallet (uid : Nat) (ws : List Wallet) : Wallet × List Wallet :=
  match findWallet uid ws with
  | some w => (w, ws)
  | none => (⟨uid, 0⟩, ws ++ [⟨uid, 0⟩])

/-- Transaction.objects.get(reference=ref, transaction_type="deposit")
(services.py line 100): first matching row. -/
def findFirstTxn (ref : String) : List Transaction → Option Transaction
  | [] => none
  | t :: ts =>
    if t.reference = ref ∧ t.transaction_type = TransactionType.deposit
    then some t else findFirstTxn ref ts

/-- txn.mark_success() persisted: rewrite the first row matching the
deposit lookup with its status set to success. -/
def markFirstTxnSuccess (ref : String) : List Transaction → List Transaction
  | [] => []
  | t :: ts =>
    if t.reference = ref ∧ t.transaction_type = TransactionType.deposit
    then Transaction.mark_success t :: ts
    else t :: markFirstTxnSuccess ref ts

/-- UserProfile.objects.get(wallet_number=wn) (services.py line 144). -/
def findProfileByNumber (wn : String) : List UserProfile → Option UserProfile
  | [] => none
  | p :: ps => if p.wallet_number = wn then some p else findProfileByNumber wn ps

/-- sender.profile (services.py line 187): the profile row of a user. -/
def findProfileByUser (uid : Nat) : List UserProfile → Option UserProfile
  | [] => none
  | p :: ps => if p.userId = uid then some p else findProfileByUser uid ps

/-- WalletService.process_successful_deposit (services.py lines 92-117),
the webhook confirmation step, wrapped in transaction.atomic:
look up the deposit transaction by reference (a missing row raises
DuplicateTransactionException, services.py line 104); if its status is
already success return it unchanged; otherwise credit the owner's wallet
with the stored amount and mark the transaction success.  A missing wallet
row would let Wallet.DoesNotExist escape uncaught (line 110); the atomic
decorator rolls back, modelled as the `walletMissingRow` error. -/
def process_successful_deposit (s : LedgerState) (reference : String) :
    Except WalletError (LedgerState × Transaction) :=
  match findFirstTxn reference s.transactions with
  | none => Except.error WalletError.duplicateTransaction
  | some txn =>
    if txn.status = TransactionStatus.success then Except.ok (s, txn)
    else
      match findWallet txn.userId s.wallets with
      | none => Except.error WalletError.walletMissingRow
      | some _ =>
        Except.ok
          ({ s with
              wallets := updateWallet txn.userId
                (fun w => Wallet.credit w txn.amount) s.wallets,
              transactions := markFirstTxnSuccess reference s.transactions },
            Transaction.mark_success txn)

/-- State reached by one webhook confirmation of the given reference; on
an error the atomic decorator leaves the state as it was. -/
def depositResultState (s : LedgerState) (ref : String) : LedgerState :=
  match process_successful_deposit s ref with
  | Except.ok (s', _) => s'
  | Except.error _ => s

/-- State after n deliveries of the same confirmation webhook. -/
def iterDeposit (ref : String) : Nat → LedgerState → LedgerState
  | 0, s => s
  | Nat.succ n, s => iterDeposit ref n (depositResultState s ref)

/-- validate_deposit_amount (constants.py lines 11-20): rejects amounts
below MIN_DEPOSIT_AMOUNT = 100 or above MAX_DEPOSIT_AMOUNT = 100000000
with a ValueError (modelled as the invalid-amount error).  NOTE: nothing
under src/ ever calls this function. -/
def validate_deposit_amount (amount : Int) : Except WalletError Unit :=
  if amount < 100 then Except.error WalletError.invalidAmount
  else if amount > 100000000 then Except.error WalletError.invalidAmount
  else Except.ok ()

/-- WalletService.initiate_deposit (services.py lines 52-90).  The only
amount check is `amount <= 0` (line 60); then the wallet is get-or-created
(line 63, a committed write, NOT inside any atomic block), then the
gateway is called (line 70, outcome passed in as `gateway`), and only on
gateway success is a pending Transaction row appended (line 77).  On a
gateway error the exception is re-raised (line 75): no transaction row is
written, but the wallet get-or-create already happened.  Returns the new
state together with the outcome (transaction and authorization url). -/
def initiate_deposit (s : LedgerState) (user : Nat) (amount : Int)
    (reference : String) (gateway : Except WalletError PaystackData) :
    LedgerState × Except WalletError (Transaction × Option String) :=
  if amount ≤ 0 then (s, Except.error WalletError.invalidAmount)
  else
    let s1 : LedgerState := { s with wallets := (getOrCreateWallet user s.wallets).2 }
    match gateway with
    | Except.error e => (s1, Except.error e)
    | Except.ok resp =>
      let txn : Transaction :=
        ⟨user, reference, TransactionType.deposit, amount,
          TransactionStatus.pending, none, none, resp.reference,
          resp.authorization_url, resp.access_code, []⟩
      ({ s1 with transactions := s1.transactions ++ [txn] },
        Except.ok (txn, resp.authorization_url))

/-- WalletService.transfer_funds (services.py lines 119-196), wrapped in
transaction.atomic.  Checks in source order: amount <= 0 raises
InvalidAmountException (line 129); missing sender wallet raises
WalletNotFoundException (line 136); balance < amount raises
InsufficientBalanceException (line 140); missing recipient profile raises
WalletNotFoundException (line 149); sender == recipient raises
InvalidAmountException with message "Cannot transfer to yourself"
(line 153).  Then the recipient wallet is get-or-created, the sender
debited, the recipient credited, and two success transaction rows are
appended: the sender-perspective row (returned) and the recipient
perspective row with reference suffix "-RECV", the sender's wallet number
as counterparty and the sender's email in the metadata.  The sender
profile read (line 187) is modelled before the writes; in the source a
missing profile raises inside the atomic block, so the net effect (error,
no state change) is the same. -/
def transfer_funds (s : LedgerState) (sender : Nat)
    (recipient_wallet_number : String) (amount : Int) (reference : String) :
    Except WalletError (LedgerState × Transaction) :=
  if amount ≤ 0 then Except.error WalletError.invalidAmount
  else
    match findWallet sender s.wallets with
    | none => Except.error WalletError.walletNotFound
    | some sender_wallet =>
      if sender_wallet.balance < amount then
        Except.error WalletError.insufficientBalance
      else
        match findProfileByNumber recipient_wallet_number s.profiles with
        | none => Except.error WalletError.walletNotFound
        | some recipient_profile =>
          if sender = recipient_profile.userId then
            Except.error WalletError.invalidAmount
          else
            match findProfileByUser sender s.profiles with
            | none => Except.error WalletError.walletMissingRow
            | some sender_profile =>
              let recipient := recipient_profile.userId
              let wallets1 := (getOrCreateWallet recipient s.wallets).2
              let wallets2 := updateWallet sender
                (fun w => ⟨w.userId, w.balance - amount⟩) wallets1
              let wallets3 := updateWallet recipient
                (fun w => Wallet.credit w amount) wallets2
              let txn : Transaction :=
                ⟨sender, reference, TransactionType.transfer, amount,
                  TransactionStatus.success, some recipient_wallet_number,
                  some recipient, none, none, none, []⟩
              let txn2 : Transaction :=
                ⟨recipient, reference ++ "-RECV", TransactionType.transfer,
                  amount, TransactionStatus.success,
                  some sender_profile.wallet_number, some sender,
                  none, none, none, [("sender", sender_profile.email)]⟩
              Except.ok
                ({ s with
                    wallets := wallets3,
                    transactions := s.transactions ++ [txn, txn2] }, txn)

/-- State reached by one transfer attempt; on an error the atomic
decorator leaves the state as it was. -/
def transferResultState (s : LedgerState) (sender : Nat) (wn : String)
    (amount : Int) (ref : String) : LedgerState :=
  match transfer_funds s sender wn amount ref with
  | Except.ok (s', _) => s'
  | Except.error _ => s

/-- The order in which transfer_funds acquires its exclusive row locks:
select_for_update on the sender's wallet first (services.py line 134),
then select_for_update on the recipient's wallet (line 156),
unconditionally — the order depends only on who is sending. -/
def transferLockOrder (sender recipient : Nat) : List Nat :=
  [sender, recipient]

/-- One credit or debit call on a wallet, with the primitives of
models.py. -/
inductive WalletOp
  | credit (amount : Int)
  | debit (amount : Int)
  deriving DecidableEq, Repr

/-- Apply one wallet operation: a debit that raises leaves the balance
unchanged (the exception aborts the enclosing atomic block). -/
def applyOp (w : Wallet) : WalletOp → Wallet
  | WalletOp.credit a => Wallet.credit w a
  | WalletOp.debit a =>
    match Wallet.debit w a with
    | Except.ok w' => w'
    | Except.error _ => w

/-- Apply a sequence of wallet operations. -/
def applyOps (w : Wallet) : List WalletOp → Wallet
  | [] => w
  | op :: ops => applyOps (applyOp w op) ops

/-! Helper lemmas about the row-lookup and row-update primitives. -/

theorem findWallet_updateWallet_self (uid : Nat) (f : Wallet → Wallet)
    (hf : ∀ x, (f x).userId = x.userId) :
    ∀ (ws : List Wallet) (w : Wallet), findWallet uid ws = some w →
      findWallet uid (updateWallet uid f ws) = some (f w) := by
  intro ws
  induction ws with
  | nil => intro w h; simp [findWallet] at h
  | cons x xs ih =>
    intro w h
    by_cases hx : x.userId = uid
    · simp [findWallet, hx] at h
      subst h
      simp [updateWallet, hx, findWallet, hf]
    · simp [findWallet, hx] at h
      simp [updateWallet, hx, findWallet]
      exact ih w h

theorem findWallet_updateWallet_other (uid v : Nat) (f : Wallet → Wallet)
    (hf : ∀ x, (f x).userId = x.userId) (hne : v ≠ uid) :
    ∀ ws : List Wallet,
      findWallet v (updateWallet uid f ws) = findWallet v ws := by
  intro ws
  induction ws with
  | nil => simp [updateWallet]
  | cons x xs ih =>
    by_cases hx : x.userId = uid
    · have hv : ¬ (f x).userId = v := by
        rw [hf x, hx]
        exact fun hc => hne hc.symm
      have hv' : ¬ x.userId = v := by
        rw [hx]
        exact fun hc => hne hc.symm
      have huv : ¬ uid = v := fun hc => hne hc.symm
      simp [updateWallet, hx, findWallet, hv, hv', huv]
    · simp [updateWallet, hx, findWallet, ih]

theorem findFirstTxn_markFirstTxnSuccess (ref : String) :
    ∀ (ts : List Transaction) (txn : Transaction),
      findFirstTxn ref ts = some txn →
      findFirstTxn ref (markFirstTxnSuccess ref ts)
        = some (Transaction.mark_success txn) := by
  intro ts
  induction ts with
  | nil => intro txn h; simp [findFirstTxn] at h
  | cons t ts ih =>
    intro txn h
    by_cases hc : t.reference = ref ∧ t.transaction_type = TransactionType.deposit
    · simp [findFirstTxn, hc] at h
      subst h
      simp [markFirstTxnSuccess, hc, findFirstTxn, Transaction.mark_success]
    · simp [findFirstTxn, hc] at h
      simp [markFirstTxnSuccess, hc, findFirstTxn]
      exact ih txn h

theorem findWallet_append_left (uid : Nat) (w : Wallet) :
    ∀ (ws ws' : List Wallet), findWallet uid ws = some w →
      findWallet uid (ws ++ ws') = some w := by
  intro ws ws'
  induction ws with
  | nil => intro h; simp [findWallet] at h
  | cons x xs ih =>
    intro h
    by_cases hx : x.userId = uid
    · simp [findWallet, hx] at h
      subst h
      simp [findWallet, hx]
    · simp [findWallet, hx] at h ⊢
      exact ih h

theorem getOrCreateWallet_of_found (uid : Nat) (ws : List Wallet) (w : Wallet)
    (h : findWallet uid ws = some w) : getOrCreateWallet uid ws = (w, ws) := by
  simp [getOrCreateWallet, h]

theorem findWallet_getOrCreateWallet (uid v : Nat) (ws : List Wallet) (w : Wallet)
    (h : findWallet v ws = some w) :
    findWallet v (getOrCreateWallet uid ws).2 = some w := by
  unfold getOrCreateWallet
  match hf : findWallet uid ws with
  | some x => simpa [hf] using h
  | none =>
    simp [hf]
    exact findWallet_append_left v w ws [⟨uid, 0⟩] h

/-! Step lemmas for the deposit confirmation operation. -/

theorem process_deposit_step (s : LedgerState) (ref : String)
    (txn : Transaction) (w : Wallet)
    (hfind : findFirstTxn ref s.transactions = some txn)
    (hst : ¬ txn.status = TransactionStatus.success)
    (hw : findWallet txn.userId s.wallets = some w) :
    process_successful_deposit s ref =
      Except.ok
        ({ s with
            wallets := updateWallet txn.userId
              (fun x => Wallet.credit x txn.amount) s.wallets,
            transactions := markFirstTxnSuccess ref s.transactions },
          Transaction.mark_success txn) := by
  simp [process_successful_deposit, hfind, hst, hw]

theorem process_deposit_of_success (s : LedgerState) (ref : String)
    (txn : Transaction)
    (hfind : findFirstTxn ref s.transactions = some txn)
    (hst : txn.status = TransactionStatus.success) :
    process_successful_deposit s ref = Except.ok (s, txn) := by
  simp [process_successful_deposit, hfind, hst]

theorem depositResultState_of_success (s : LedgerState) (ref : String)
    (txn : Transaction)
    (hfind : findFirstTxn ref s.transactions = some txn)
    (hst : txn.status = TransactionStatus.success) :
    depositResultState s ref = s := by
  simp [depositResultState, process_deposit_of_success s ref txn hfind hst]

theorem iterDeposit_fixed (ref : String) (s : LedgerState) (txn : Transaction)
    (hfind : findFirstTxn ref s.transactions = some txn)
    (hst : txn.status = TransactionStatus.success) :
    ∀ n : Nat, iterDeposit ref n s = s := by
  intro n
  induction n with
  | zero => rfl
  | succ n ih =>
    rw [iterDeposit, depositResultState_of_success s ref txn hfind hst]
    exact ih

/-- C1: for every deposit transaction with reference R and amount A whose
confirmation has not yet succeeded, delivering process_successful_deposit(R)
N >= 1 times leaves the state of a single delivery: the owning wallet is
credited exactly once with A, the transaction is in status success after the
first application, and every application after the first returns the
existing record unchanged with no other state change. -/
theorem deposit_confirmation_idempotent (s : LedgerState) (ref : String)
    (txn : Transaction) (w : Wallet) (n : Nat)
    (hfind : findFirstTxn ref s.transactions = some txn)
    (hst : ¬ txn.status = TransactionStatus.success)
    (hw : findWallet txn.userId s.wallets = some w)
    (hn : 1 ≤ n) :
    iterDeposit ref n s = depositResultState s ref
    ∧ findWallet txn.userId (iterDeposit ref n s).wallets
        = some (Wallet.credit w txn.amount)
    ∧ findFirstTxn ref (iterDeposit ref n s).transactions
        = some (Transaction.mark_success txn)
    ∧ process_successful_deposit (iterDeposit ref n s) ref
        = Except.ok (iterDeposit ref n s, Transaction.mark_success txn) := by
  obtain ⟨m, rfl⟩ : ∃ m, n = m + 1 :=
    ⟨n - 1, (Nat.succ_pred_eq_of_pos hn).symm⟩
  have hstep := process_deposit_step s ref txn w hfind hst hw
  have hs1eq : depositResultState s ref
      = { s with
          wallets := updateWallet txn.userId
            (fun x => Wallet.credit x txn.amount) s.wallets,
          transactions := markFirstTxnSuccess ref s.transactions } := by
    simp [depositResultState, hstep]
  have hfind1 : findFirstTxn ref (depositResultState s ref).transactions
      = some (Transaction.mark_success txn) := by
    rw [hs1eq]
    exact findFirstTxn_markFirstTxnSuccess ref s.transactions txn hfind
  have hw1 : findWallet txn.userId (depositResultState s ref).wallets
      = some (Wallet.credit w txn.amount) := by
    rw [hs1eq]
    exact findWallet_updateWallet_self txn.userId
      (fun x => Wallet.credit x txn.amount) (fun x => rfl) s.wallets w hw
  have hstat1 : (Transaction.mark_success txn).status = TransactionStatus.success := rfl
  have hiter : iterDeposit ref (m + 1) s = depositResultState s ref := by
    show iterDeposit ref m (depositResultState s ref) = depositResultState s ref
    exact iterDeposit_fixed ref (depositResultState s ref)
      (Transaction.mark_success txn) hfind1 hstat1 m
  refine ⟨hiter, ?_, ?_, ?_⟩
  · rw [hiter]; exact hw1
  · rw [hiter]; exact hfind1
  · rw [hiter]
    exact process_deposit_of_success (depositResultState s ref) ref
      (Transaction.mark_success txn) hfind1 hstat1

/-- A concrete ledger: one user (id 1, wallet number WN1), a wallet with
balance 10000, and one pending deposit of 5000 under reference TXN-A. -/
def exState : LedgerState :=
  ⟨[⟨1, "WN1", "a@x.com"⟩], [⟨1, 10000⟩],
    [⟨1, "TXN-A", TransactionType.deposit, 5000, TransactionStatus.pending,
      none, none, none, none, none, []⟩]⟩

/-- The pending deposit row of exState. -/
def exTxnA : Transaction :=
  ⟨1, "TXN-A", TransactionType.deposit, 5000, TransactionStatus.pending,
    none, none, none, none, none, []⟩

/-- Witness for C1 at a concrete input: two deliveries of the webhook for
TXN-A on exState credit the wallet once. -/
theorem deposit_confirmation_idempotent_witness :
    (1 : Nat) ≤ 2
    ∧ (iterDeposit "TXN-A" 2 exState = depositResultState exState "TXN-A"
      ∧ findWallet 1 (iterDeposit "TXN-A" 2 exState).wallets
          = some (Wallet.credit ⟨1, 10000⟩ 5000)
      ∧ findFirstTxn "TXN-A" (iterDeposit "TXN-A" 2 exState).transactions
          = some (Transaction.mark_success exTxnA)
      ∧ process_successful_deposit (iterDeposit "TXN-A" 2 exState) "TXN-A"
          = Except.ok (iterDeposit "TXN-A" 2 exState,
              Transaction.mark_success exTxnA)) :=
  ⟨by decide,
    deposit_confirmation_idempotent exState "TXN-A" exTxnA ⟨1, 10000⟩ 2
      (by decide) (by decide) (by decide) (by decide)⟩

theorem applyOps_nonneg : ∀ (ops : List WalletOp) (w : Wallet),
    0 ≤ w.balance → (∀ x : Int, WalletOp.credit x ∈ ops → 0 < x) →
    0 ≤ (applyOps w ops).balance := by
  intro ops
  induction ops with
  | nil => intro w h0 _; exact h0
  | cons op ops ih =>
    intro w h0 hpos
    have hop : 0 ≤ (applyOp w op).balance := by
      cases op with
      | credit x =>
        have hx : 0 < x := hpos x (List.mem_cons_self _ _)
        simp [applyOp, Wallet.credit]
        exact add_nonneg h0 (le_of_lt hx)
      | debit x =>
        by_cases hlt : w.balance < x
        · simpa [applyOp, Wallet.debit, hlt] using h0
        · simp [applyOp, Wallet.debit, hlt]
          exact not_lt.mp hlt
    show 0 ≤ (applyOps (applyOp w op) ops).balance
    exact ih (applyOp w op) hop (fun x hx => hpos x (List.mem_cons_of_mem _ hx))

/-- C2 counterexample: the claim quantifies over every sequence of credit
and debit operations, but Wallet.credit accepts a negative amount (no
validation, models.py line 36), so a single credit of -1 drives a zero
balance to -1 < 0, refuting balance >= 0 at all times. -/
theorem balance_nonnegative_counterexample :
    (applyOps ⟨1, 0⟩ [WalletOp.credit (-1)]).balance = -1
    ∧ ¬ (0 ≤ (applyOps ⟨1, 0⟩ [WalletOp.credit (-1)]).balance) := by
  decide

/-- C2 (amended): for every wallet with a non-negative balance and every
sequence of credit and debit operations in which each credited amount is
positive (the specification's precondition on credit), the balance stays
non-negative; debit(amount) fails with the insufficient-balance error and
leaves the balance unchanged whenever balance < amount, and otherwise
decreases the balance by amount. -/
theorem balance_nonnegative_amended (w : Wallet) (ops : List WalletOp) (a : Int)
    (h0 : 0 ≤ w.balance)
    (hpos : ∀ x : Int, WalletOp.credit x ∈ ops → 0 < x) :
    0 ≤ (applyOps w ops).balance
    ∧ (w.balance < a →
        Wallet.debit w a = Except.error WalletError.insufficientBalance
        ∧ applyOp w (WalletOp.debit a) = w)
    ∧ (a ≤ w.balance → Wallet.debit w a = Except.ok ⟨w.userId, w.balance - a⟩) := by
  refine ⟨applyOps_nonneg ops w h0 hpos, ?_, ?_⟩
  · intro hlt
    constructor
    · simp [Wallet.debit, hlt]
    · simp [applyOp, Wallet.debit, hlt]
  · intro hle
    simp [Wallet.debit, not_lt.mpr hle]

/-- Witness for the amended C2 at a concrete input. -/
theorem balance_nonnegative_amended_witness :
    ((0 : Int) ≤ (Wallet.mk 1 5).balance)
    ∧ (0 ≤ (applyOps ⟨1, 5⟩ [WalletOp.debit 2]).balance
      ∧ ((Wallet.mk 1 5).balance < 7 →
          Wallet.debit ⟨1, 5⟩ 7 = Except.error WalletError.insufficientBalance
          ∧ applyOp ⟨1, 5⟩ (WalletOp.debit 7) = ⟨1, 5⟩)
      ∧ ((7 : Int) ≤ (Wallet.mk 1 5).balance →
          Wallet.debit ⟨1, 5⟩ 7 = Except.ok ⟨1, (Wallet.mk 1 5).balance - 7⟩)) :=
  ⟨by decide,
    balance_nonnegative_amended ⟨1, 5⟩ [WalletOp.debit 2] 7 (by decide)
      (by intro x hx; simp at hx)⟩

/-- C3: a successful transfer of positive amount A from sender S to a
distinct recipient R with sufficient balance debits S by exactly A,
credits R by exactly A, and appends exactly two success transaction
records in the same atomic unit: the sender-perspective record (returned)
carrying the recipient's wallet number and id, and the recipient
perspective record whose reference is the sender reference with suffix
-RECV, carrying the sender's wallet number and id. -/
theorem transfer_conservation (s : LedgerState) (sender : Nat) (wn : String)
    (amount : Int) (ref : String) (sw rw : Wallet) (rp sp : UserProfile)
    (hamt : 0 < amount)
    (hsw : findWallet sender s.wallets = some sw)
    (hbal : amount ≤ sw.balance)
    (hrp : findProfileByNumber wn s.profiles = some rp)
    (hne : sender ≠ rp.userId)
    (hrw : findWallet rp.userId s.wallets = some rw)
    (hsp : findProfileByUser sender s.profiles = some sp) :
    transfer_funds s sender wn amount ref
      = Except.ok (transferResultState s sender wn amount ref,
          ⟨sender, ref, TransactionType.transfer, amount,
            TransactionStatus.success, some wn, some rp.userId,
            none, none, none, []⟩)
    ∧ (transferResultState s sender wn amount ref).transactions
        = s.transactions ++
          [⟨sender, ref, TransactionType.transfer, amount,
            TransactionStatus.success, some wn, some rp.userId,
            none, none, none, []⟩,
           ⟨rp.userId, ref ++ "-RECV", TransactionType.transfer, amount,
            TransactionStatus.success, some sp.wallet_number, some sender,
            none, none, none, [("sender", sp.email)]⟩]
    ∧ findWallet sender (transferResultState s sender wn amount ref).wallets
        = some ⟨sw.userId, sw.balance - amount⟩
    ∧ findWallet rp.userId (transferResultState s sender wn amount ref).wallets
        = some (Wallet.credit rw amount) := by
  have hnotle : ¬ amount ≤ 0 := not_le.mpr hamt
  have hnotlt : ¬ sw.balance < amount := not_lt.mpr hbal
  have hgoc : getOrCreateWallet rp.userId s.wallets = (rw, s.wallets) :=
    getOrCreateWallet_of_found rp.userId s.wallets rw hrw
  have hresult : transfer_funds s sender wn amount ref =
      Except.ok
        ({ s with
            wallets := updateWallet rp.userId (fun w => Wallet.credit w amount)
              (updateWallet sender (fun w => ⟨w.userId, w.balance - amount⟩)
                s.wallets),
            transactions := s.transactions ++
              [⟨sender, ref, TransactionType.transfer, amount,
                TransactionStatus.success, some wn, some rp.userId,
                none, none, none, []⟩,
               ⟨rp.userId, ref ++ "-RECV", TransactionType.transfer, amount,
                TransactionStatus.success, some sp.wallet_number, some sender,
                none, none, none, [("sender", sp.email)]⟩] },
          ⟨sender, ref, TransactionType.transfer, amount,
            TransactionStatus.success, some wn, some rp.userId,
            none, none, none, []⟩) := by
    simp [transfer_funds, hnotle, hsw, hnotlt, hrp, hne, hsp, hgoc]
  have hstate : transferResultState s sender wn amount ref =
      { s with
          wallets := updateWallet rp.userId (fun w => Wallet.credit w amount)
            (updateWallet sender (fun w => ⟨w.userId, w.balance - amount⟩)
              s.wallets),
          transactions := s.transactions ++
            [⟨sender, ref, TransactionType.transfer, amount,
              TransactionStatus.success, some wn, some rp.userId,
              none, none, none, []⟩,
             ⟨rp.userId, ref ++ "-RECV", TransactionType.transfer, amount,
              TransactionStatus.success, some sp.wallet_number, some sender,
              none, none, none, [("sender", sp.email)]⟩] } := by
    simp [transferResultState, hresult]
  refine ⟨by rw [hstate]; exact hresult, by rw [hstate], ?_, ?_⟩
  · rw [hstate]
    show findWallet sender
      (updateWallet rp.userId (fun w => Wallet.credit w amount)
        (updateWallet sender (fun w => ⟨w.userId, w.balance - amount⟩)
          s.wallets)) = some ⟨sw.userId, sw.balance - amount⟩
    rw [findWallet_updateWallet_other rp.userId sender
      (fun w => Wallet.credit w amount) (fun x => rfl) hne]
    exact findWallet_updateWallet_self sender
      (fun w => ⟨w.userId, w.balance - amount⟩) (fun x => rfl) s.wallets sw hsw
  · rw [hstate]
    show findWallet rp.userId
      (updateWallet rp.userId (fun w => Wallet.credit w amount)
        (updateWallet sender (fun w => ⟨w.userId, w.balance - amount⟩)
          s.wallets)) = some (Wallet.credit rw amount)
    have hrw2 : findWallet rp.userId
        (updateWallet sender (fun w => ⟨w.userId, w.balance - amount⟩)
          s.wallets) = some rw := by
      rw [findWallet_updateWallet_other sender rp.userId
        (fun w => ⟨w.userId, w.balance - amount⟩) (fun x => rfl)
        (fun h => hne h.symm)]
      exact hrw
    exact findWallet_updateWallet_self rp.userId
      (fun w => Wallet.credit w amount) (fun x => rfl) _ rw hrw2

/-- A concrete ledger for transfers: users 1 (WN1, balance 10000) and
2 (WN2, balance 0), empty transaction list. -/
def exState2 : LedgerState :=
  ⟨[⟨1, "WN1", "a@x.com"⟩, ⟨2, "WN2", "b@x.com"⟩],
    [⟨1, 10000⟩, ⟨2, 0⟩], []⟩

/-- Witness for C3 at a concrete input: user 1 sends 3000 to wallet
number WN2. -/
theorem transfer_conservation_witness :
    transfer_funds exState2 1 "WN2" 3000 "TXN-T"
      = Except.ok (transferResultState exState2 1 "WN2" 3000 "TXN-T",
          ⟨1, "TXN-T", TransactionType.transfer, 3000,
            TransactionStatus.success, some "WN2", some 2,
            none, none, none, []⟩)
    ∧ (transferResultState exState2 1 "WN2" 3000 "TXN-T").transactions
        = exState2.transactions ++
          [⟨1, "TXN-T", TransactionType.transfer, 3000,
            TransactionStatus.success, some "WN2", some 2,
            none, none, none, []⟩,
           ⟨2, "TXN-T" ++ "-RECV", TransactionType.transfer, 3000,
            TransactionStatus.success, some "WN1", some 1,
            none, none, none, [("sender", "a@x.com")]⟩]
    ∧ findWallet 1 (transferResultState exState2 1 "WN2" 3000 "TXN-T").wallets
        = some ⟨1, 10000 - 3000⟩
    ∧ findWallet 2 (transferResultState exState2 1 "WN2" 3000 "TXN-T").wallets
        = some (Wallet.credit ⟨2, 0⟩ 3000) :=
  transfer_conservation exState2 1 "WN2" 3000 "TXN-T"
    ⟨1, 10000⟩ ⟨2, 0⟩ ⟨2, "WN2", "b@x.com"⟩ ⟨1, "WN1", "a@x.com"⟩
    (by decide) (by decide) (by decide) (by decide) (by decide)
    (by decide) (by decide)

/-- C4: the transfer path always locks the sender's wallet row first and
the recipient's second (services.py lines 134 and 156), so the same
wallet pair 1,2 is locked in opposite orders by the two opposite
direction transfers — there is no fixed deterministic global lock order,
and the circular-wait pattern between two concurrent opposite transfers
is exactly the two reversed acquisition lists shown here. -/
theorem transfer_lock_order_sender_first :
    transferLockOrder 1 2 = [1, 2]
    ∧ transferLockOrder 2 1 = [2, 1]
    ∧ transferLockOrder 2 1 = (transferLockOrder 1 2).reverse
    ∧ transferLockOrder 2 1 ≠ transferLockOrder 1 2 := by
  decide

/-- A concrete ledger whose only transaction is a FAILED deposit of 5000
under reference TXN-A, owned by user 1 whose wallet holds 0. -/
def exStateFailed : LedgerState :=
  ⟨[], [⟨1, 0⟩],
    [⟨1, "TXN-A", TransactionType.deposit, 5000, TransactionStatus.failed,
      none, none, none, none, none, []⟩]⟩

/-- The failed deposit row of exStateFailed. -/
def exTxnFailed : Transaction :=
  ⟨1, "TXN-A", TransactionType.deposit, 5000, TransactionStatus.failed,
    none, none, none, none, none, []⟩

/-- C5 counterexample: a transaction in terminal status failed is changed
by a subsequent operation — process_successful_deposit re-applied to its
reference rewrites the status to success and credits the wallet on its
behalf (the code only short-circuits on status success, services.py
line 106). -/
theorem terminal_status_counterexample :
    (findFirstTxn "TXN-A" exStateFailed.transactions).map Transaction.status
      = some TransactionStatus.failed
    ∧ (findFirstTxn "TXN-A"
        (depositResultState exStateFailed "TXN-A").transactions).map
          Transaction.status
      = some TransactionStatus.success
    ∧ findWallet 1 (depositResultState exStateFailed "TXN-A").wallets
      = some ⟨1, 5000⟩ := by
  decide

/-- C5 (amended): only status success is terminal under
process_successful_deposit: re-delivery for a success transaction returns
the existing record with no state change, but a FAILED deposit
transaction is treated like a pending one — re-processing credits the
owning wallet and rewrites the status to success. -/
theorem terminal_status_amended (s : LedgerState) (ref : String)
    (txn : Transaction) (w : Wallet)
    (hfind : findFirstTxn ref s.transactions = some txn)
    (hw : findWallet txn.userId s.wallets = some w) :
    (txn.status = TransactionStatus.success →
      process_successful_deposit s ref = Except.ok (s, txn))
    ∧ (txn.status = TransactionStatus.failed →
        findFirstTxn ref (depositResultState s ref).transactions
          = some (Transaction.mark_success txn)
        ∧ findWallet txn.userId (depositResultState s ref).wallets
          = some (Wallet.credit w txn.amount)) := by
  constructor
  · intro hst
    exact process_deposit_of_success s ref txn hfind hst
  · intro hst
    have hns : ¬ txn.status = TransactionStatus.success := by simp [hst]
    have hstep := process_deposit_step s ref txn w hfind hns hw
    have hs1eq : depositResultState s ref
        = { s with
            wallets := updateWallet txn.userId
              (fun x => Wallet.credit x txn.amount) s.wallets,
            transactions := markFirstTxnSuccess ref s.transactions } := by
      simp [depositResultState, hstep]
    constructor
    · rw [hs1eq]
      exact findFirstTxn_markFirstTxnSuccess ref s.transactions txn hfind
    · rw [hs1eq]
      exact findWallet_updateWallet_self txn.userId
        (fun x => Wallet.credit x txn.amount) (fun x => rfl) s.wallets w hw

/-- Witness for the amended C5 at a concrete input. -/
theorem terminal_status_amended_witness :
    (exTxnFailed.status = TransactionStatus.success →
      process_successful_deposit exStateFailed "TXN-A"
        = Except.ok (exStateFailed, exTxnFailed))
    ∧ (exTxnFailed.status = TransactionStatus.failed →
        findFirstTxn "TXN-A"
            (depositResultState exStateFailed "TXN-A").transactions
          = some (Transaction.mark_success exTxnFailed)
        ∧ findWallet 1 (depositResultState exStateFailed "TXN-A").wallets
          = some (Wallet.credit ⟨1, 0⟩ 5000)) :=
  terminal_status_amended exStateFailed "TXN-A" exTxnFailed ⟨1, 0⟩
    (by decide) (by decide)

/-- C6 counterexample: a self-transfer (user 1 sending to its own wallet
number WN1) fails with the invalid-amount error — the exception raised at
services.py line 153 is InvalidAmountException — which is a different
error than the invalid-operation category the claim names; the ledger is
left unchanged. -/
theorem self_transfer_counterexample :
    transfer_funds exState2 1 "WN1" 100 "TXN-S"
      = Except.error WalletError.invalidAmount
    ∧ WalletError.invalidAmount ≠ WalletError.invalidOperation
    ∧ transferResultState exState2 1 "WN1" 100 "TXN-S" = exState2 :=
  ⟨rfl, by decide, rfl⟩

/-- C6 (amended): a transfer whose resolved recipient equals the sender
never succeeds and leaves the ledger unchanged; when the request passes
the earlier amount and balance checks, the failure is the invalid-amount
error (InvalidAmountException "Cannot transfer to yourself", services.py
line 153), not an invalid-operation error — no such exception class
exists in this codebase. -/
theorem self_transfer_amended (s : LedgerState) (sender : Nat) (wn : String)
    (amount : Int) (ref : String) (p : UserProfile)
    (hp : findProfileByNumber wn s.profiles = some p)
    (hself : p.userId = sender) :
    (∀ (st : LedgerState) (txn : Transaction),
      transfer_funds s sender wn amount ref ≠ Except.ok (st, txn))
    ∧ transferResultState s sender wn amount ref = s
    ∧ (∀ sw : Wallet, 0 < amount → findWallet sender s.wallets = some sw →
        amount ≤ sw.balance →
        transfer_funds s sender wn amount ref
          = Except.error WalletError.invalidAmount) := by
  subst hself
  have hE : ∃ e : WalletError,
      transfer_funds s p.userId wn amount ref = Except.error e := by
    by_cases h1 : amount ≤ 0
    · exact ⟨WalletError.invalidAmount, by simp [transfer_funds, h1]⟩
    · match hsw : findWallet p.userId s.wallets with
      | none =>
        exact ⟨WalletError.walletNotFound, by simp [transfer_funds, h1, hsw]⟩
      | some sw =>
        by_cases h2 : sw.balance < amount
        · exact ⟨WalletError.insufficientBalance,
            by simp [transfer_funds, h1, hsw, h2]⟩
        · exact ⟨WalletError.invalidAmount,
            by simp [transfer_funds, h1, hsw, h2, hp]⟩
  obtain ⟨e, he⟩ := hE
  refine ⟨?_, ?_, ?_⟩
  · intro st txn hok
    rw [he] at hok
    cases hok
  · simp [transferResultState, he]
  · intro sw hpos hsw hbal
    simp [transfer_funds, not_le.mpr hpos, hsw, not_lt.mpr hbal, hp]

/-- Witness for the amended C6 at a concrete input. -/
theorem self_transfer_amended_witness :
    (∀ (st : LedgerState) (txn : Transaction),
      transfer_funds exState2 1 "WN1" 250 "TXN-S2" ≠ Except.ok (st, txn))
    ∧ transferResultState exState2 1 "WN1" 250 "TXN-S2" = exState2
    ∧ (∀ sw : Wallet, (0 : Int) < 250 →
        findWallet 1 exState2.wallets = some sw → 250 ≤ sw.balance →
        transfer_funds exState2 1 "WN1" 250 "TXN-S2"
          = Except.error WalletError.invalidAmount) :=
  self_transfer_amended exState2 1 "WN1" 250 "TXN-S2" ⟨1, "WN1", "a@x.com"⟩
    (by decide) (by decide)

/-- A successful gateway response with all three fields present. -/
def exResp : PaystackData :=
  ⟨some "PSK-1", some "http://pay", some "AC-1"⟩

/-- C7: deposit initiation does NOT validate against the gateway bounds.
validate_deposit_amount (constants.py) rejects 50 as below
MIN_DEPOSIT_AMOUNT = 100, yet initiate_deposit (whose only check is
amount <= 0, services.py line 60) accepts amount 50: the gateway is
called and a pending Transaction for 50 is persisted. -/
theorem deposit_bounds_not_enforced :
    validate_deposit_amount 50 = Except.error WalletError.invalidAmount
    ∧ (initiate_deposit exState2 1 50 "TXN-D" (Except.ok exResp)).2
        = Except.ok
            (⟨1, "TXN-D", TransactionType.deposit, 50,
              TransactionStatus.pending, none, none, some "PSK-1",
              some "http://pay", some "AC-1", []⟩,
              some "http://pay")
    ∧ (initiate_deposit exState2 1 50 "TXN-D" (Except.ok exResp)).1.transactions
        = exState2.transactions ++
          [⟨1, "TXN-D", TransactionType.deposit, 50,
            TransactionStatus.pending, none, none, some "PSK-1",
            some "http://pay", some "AC-1", []⟩] :=
  ⟨rfl, rfl, rfl⟩

/-- C8: confirming a reference with no deposit transaction fails and
mutates nothing, but the exception raised (services.py line 104) is
DuplicateTransactionException — the class documented in exceptions.py as
"reference already exists" — not the not-found error
(WalletNotFoundException is the codebase's not-found class and is unused
here). -/
theorem missing_reference_confirmation :
    process_successful_deposit exState2 "TXN-X"
      = Except.error WalletError.duplicateTransaction
    ∧ WalletError.duplicateTransaction ≠ WalletError.walletNotFound
    ∧ depositResultState exState2 "TXN-X" = exState2 :=
  ⟨rfl, by decide, rfl⟩

/-- The empty ledger. -/
def exEmpty : LedgerState := ⟨[], [], []⟩

/-- C9 counterexample: when the gateway call fails for a user with no
wallet yet, the failure is surfaced and no Transaction is persisted, but
the ledger state is NOT exactly as before the call: the wallet
get-or-create (services.py line 63) runs before the gateway call,
outside any atomic block, and its zero-balance wallet row persists. -/
theorem gateway_failure_counterexample :
    (initiate_deposit exEmpty 7 100 "TXN-E"
        (Except.error WalletError.paystackAPI)).2
      = Except.error WalletError.paystackAPI
    ∧ (initiate_deposit exEmpty 7 100 "TXN-E"
        (Except.error WalletError.paystackAPI)).1.transactions
      = exEmpty.transactions
    ∧ (initiate_deposit exEmpty 7 100 "TXN-E"
        (Except.error WalletError.paystackAPI)).1 ≠ exEmpty :=
  ⟨rfl, rfl, by decide⟩

/-- C9 (amended): if the gateway call fails, initiate_deposit surfaces
the gateway error, persists no Transaction (the transaction list is
unchanged), changes no profile and no existing wallet balance; the only
possible difference from the pre-call state is the zero-balance wallet
row added by the get-or-create step, and for a user who already has a
wallet the state is exactly as before the call. -/
theorem gateway_failure_amended (s : LedgerState) (user : Nat)
    (amount : Int) (ref : String) (e : WalletError) (hamt : 0 < amount) :
    (initiate_deposit s user amount ref (Except.error e)).2 = Except.error e
    ∧ (initiate_deposit s user amount ref (Except.error e)).1.transactions
        = s.transactions
    ∧ (initiate_deposit s user amount ref (Except.error e)).1.profiles
        = s.profiles
    ∧ (∀ (uid : Nat) (w : Wallet), findWallet uid s.wallets = some w →
        findWallet uid
          (initiate_deposit s user amount ref (Except.error e)).1.wallets
        = some w)
    ∧ (∀ w : Wallet, findWallet user s.wallets = some w →
        (initiate_deposit s user amount ref (Except.error e)).1 = s) := by
  have h1 : ¬ amount ≤ 0 := not_le.mpr hamt
  have hre : initiate_deposit s user amount ref (Except.error e)
      = ({ s with wallets := (getOrCreateWallet user s.wallets).2 },
          Except.error e) := by
    simp [initiate_deposit, h1]
  refine ⟨by rw [hre], by rw [hre], by rw [hre], ?_, ?_⟩
  · intro uid w hw
    rw [hre]
    exact findWallet_getOrCreateWallet user uid s.wallets w hw
  · intro w hw
    rw [hre, getOrCreateWallet_of_found user s.wallets w hw]

/-- Witness for the amended C9 at a concrete input. -/
theorem gateway_failure_amended_witness :
    (initiate_deposit exState2 1 100 "TXN-E2"
        (Except.error WalletError.paystackAPI)).2
      = Except.error WalletError.paystackAPI
    ∧ (initiate_deposit exState2 1 100 "TXN-E2"
        (Except.error WalletError.paystackAPI)).1.transactions
        = exState2.transactions
    ∧ (initiate_deposit exState2 1 100 "TXN-E2"
        (Except.error WalletError.paystackAPI)).1.profiles
        = exState2.profiles
    ∧ (∀ (uid : Nat) (w : Wallet), findWallet uid exState2.wallets = some w →
        findWallet uid
          (initiate_deposit exState2 1 100 "TXN-E2"
            (Except.error WalletError.paystackAPI)).1.wallets
        = some w)
    ∧ (∀ w : Wallet, findWallet 1 exState2.wallets = some w →
        (initiate_deposit exState2 1 100 "TXN-E2"
          (Except.error WalletError.paystackAPI)).1 = exState2) :=
  gateway_failure_amended exState2 1 100 "TXN-E2" WalletError.paystackAPI
    (by decide)

/-- A concrete ledger holding a pending deposit transaction whose stored
amount is negative (-5): models.py line 60 declares amount as a plain
BigIntegerField, so such a row is storable. -/
def exStateNeg : LedgerState :=
  ⟨[], [⟨1, 0⟩],
    [⟨1, "TXN-N", TransactionType.deposit, -5, TransactionStatus.pending,
      none, none, none, none, none, []⟩]⟩

/-- C10: Wallet.credit performs no validation of its argument — for every
integer amount it sets balance to balance + amount — so a negative credit
reduces the balance, and a deposit transaction with a negative stored
amount reaching process_successful_deposit drives the owning wallet's
balance below zero. -/
theorem credit_unvalidated (w : Wallet) (a : Int) :
    Wallet.credit w a = ⟨w.userId, w.balance + a⟩
    ∧ (Wallet.credit ⟨1, 0⟩ (-5)).balance = -5
    ∧ (Wallet.credit ⟨1, 0⟩ (-5)).balance < 0
    ∧ findWallet 1 (depositResultState exStateNeg "TXN-N").wallets
        = some ⟨1, -5⟩ :=
  ⟨rfl, by decide, by decide, by decide⟩
